import Mathlib

/-!
Verification of the USB-testbench benchmark engine.

Shallow embedding of the core benchmark code:
  - src/benchmark.py : write_benchmark, read_benchmark, random_seek_benchmark
  - src/utils.py     : read_with_no_buffering (direct I/O with buffered fallback)
  - src/db.py        : save_benchmark_results (unit conversion on persistence)

Durations measured with time.time() are modelled as oracles (functions from the
operation index to a rational duration); Python floats are embedded as ℚ.
Randomness (random.randint) is modelled by an oracle stream of naturals reduced
modulo the range size, so that every value of the Python range is attainable.
A Python exception escaping a function is modelled as an Option-valued result
being none.
-/

namespace USBTestbench

/-! ### Statistics aggregation

Models Python statistics.mean, statistics.median and the builtins min and max
as used by the results.update blocks of src/benchmark.py (lines 89-96, 145-151,
252-259, 336-342, 433-440).  The nonempty input list is written x :: xs;
statistics.mean raises StatisticsError on an empty sequence, which the
Option-valued summarize below models as none. -/

/-- Python builtin min over the nonempty list x :: xs (a left fold of the
binary minimum). -/
def pyMin (x : ℚ) (xs : List ℚ) : ℚ := xs.foldl min x

/-- Python builtin max over the nonempty list x :: xs. -/
def pyMax (x : ℚ) (xs : List ℚ) : ℚ := xs.foldl max x

/-- Python statistics.mean over the nonempty list x :: xs: the sum divided by
the length. -/
def mean (x : ℚ) (xs : List ℚ) : ℚ := (x :: xs).sum / ((x :: xs).length : ℚ)

/-- Python statistics.median over the nonempty list x :: xs: sort, then take
the middle element (odd length) or the average of the two middle elements
(even length). -/
def median (x : ℚ) (xs : List ℚ) : ℚ :=
  let s := List.insertionSort (fun a b => a ≤ b) (x :: xs)
  let n := s.length
  if n % 2 = 1 then s.getD (n / 2) 0
  else (s.getD (n / 2 - 1) 0 + s.getD (n / 2) 0) / 2

/-- The four summary statistics stored by every results.update block of
src/benchmark.py. -/
structure Summary where
  avg : ℚ
  min : ℚ
  max : ℚ
  median : ℚ

/-- Aggregation of a sample list into summary statistics.  statistics.mean
(the first aggregate computed in each results.update block) raises
StatisticsError on an empty sequence, before any summary value is produced:
modelled by none. -/
def summarize : List ℚ → Option Summary
  | [] => none
  | x :: xs => some ⟨mean x xs, pyMin x xs, pyMax x xs, median x xs⟩

/-- The sample list gathered by a timed loop over range(n): the measured
duration of operation i is the oracle value dur i (src/benchmark.py lines
53-82, 226-245, 406-426). -/
def workloadSamples (dur : ℕ → ℚ) (n : ℕ) : List ℚ := (List.range n).map dur

/-! ### Direct I/O read with buffered fallback (src/utils.py lines 243-328)

read_with_no_buffering(file_path, file_size_bytes) returns a pair
(duration, throughput).  The embedding abstracts the file into its actual
on-disk size A (bytes readable before end of file) and the declared size N
(the file_size_bytes argument); wall-clock durations of the two timed loops
are the oracles dD (direct path) and dB (buffered path).  The flags hasWin32,
openOk and readOk say whether PyWin32 is importable, whether
win32file.CreateFile succeeds, and whether the ReadFile loop runs without an
API error; any failure in the try block (including a ZeroDivisionError from a
zero direct duration) is caught at line 325 and falls back to
standard_reading.  A ZeroDivisionError escaping standard_reading itself is
modelled as none. -/

/-- The direct-path read loop (src/utils.py lines 300-311): while fewer than
file_size_bytes have been read, ReadFile delivers up to a buffer of bytes from
the remainder of the actual file; an empty read (end of file) stops the loop.
Returns total_bytes_read at loop exit. -/
def readLoop (bufSize A N total : ℕ) : ℕ :=
  if total < N then
    let r := min bufSize (A - total)
    if r = 0 then total
    else readLoop bufSize A N (total + r)
  else total
termination_by N - total
decreasing_by omega

/-- The buffered fallback read loop (src/utils.py lines 257-263): read 4 MiB
chunks until an empty chunk, i.e. consume the whole actual file.  Returns the
total number of bytes read. -/
def readAllLoop (chunkSize A total : ℕ) : ℕ :=
  let r := min chunkSize (A - total)
  if r = 0 then total
  else readAllLoop chunkSize A (total + r)
termination_by A - total
decreasing_by omega

/-- standard_reading (src/utils.py lines 255-267): buffered sequential read of
the whole file in 4 MiB chunks; the number of bytes actually read is not used.
throughput = file_size_bytes / (1024*1024) / duration, with no guard on the
divisor: a zero duration raises ZeroDivisionError (none). -/
def standard_reading (A N : ℕ) (dB : ℚ) : Option (ℚ × ℚ) :=
  let _totalRead := readAllLoop (4 * 1024 * 1024) A 0
  if dB = 0 then none
  else some (dB, (N : ℚ) / (1024 * 1024) / dB)

/-- read_with_no_buffering (src/utils.py lines 243-328).  Without PyWin32 the
buffered path is used directly (line 270-271); otherwise the direct path is
tried and any failure of it (open failure, ReadFile error, or the
ZeroDivisionError from a zero direct duration) is caught at line 325 and
answered by standard_reading.  On direct-path success the result is
(duration, file_size_bytes / (1024*1024) / duration), computed from the
declared size, not from total_bytes_read. -/
def read_with_no_buffering (hasWin32 openOk readOk : Bool) (dD dB : ℚ)
    (A N : ℕ) : Option (ℚ × ℚ) :=
  if hasWin32 = false then standard_reading A N dB
  else if openOk = false then standard_reading A N dB
  else if readOk = false then standard_reading A N dB
  else
    let _totalRead := readLoop (1024 * 1024) A N 0
    if dD = 0 then standard_reading A N dB
    else some (dD, (N : ℚ) / (1024 * 1024) / dD)

/-! ### The write-latency workload (src/benchmark.py lines 33-96) -/

/-- Events visible in the latency phase of write_benchmark: a call to
clear_cache, or the timed write of small file i. -/
inductive BenchEvent where
  | clearCache : BenchEvent
  | timedWrite : ℕ → BenchEvent
  deriving DecidableEq

/-- The events before the timed loop (src/benchmark.py lines 49-51): the cache
is cleared once before the batch exactly when latency_file_count ≤ 20. -/
def writeLatencyPre (count : ℕ) : List BenchEvent :=
  if count ≤ 20 then [BenchEvent.clearCache] else []

/-- The events of loop iteration i (src/benchmark.py lines 53-82): the cache
is cleared inside the loop exactly when latency_file_count > 20 and
i % 5 == 0, followed by the timed write of file i. -/
def writeLatencyIter (count i : ℕ) : List BenchEvent :=
  (if 20 < count ∧ i % 5 = 0 then [BenchEvent.clearCache] else []) ++
    [BenchEvent.timedWrite i]

/-- The full event sequence of the write-latency phase. -/
def writeLatencyTrace (count : ℕ) : List BenchEvent :=
  writeLatencyPre count ++ (List.range count).flatMap (writeLatencyIter count)

/-- The timed loop of the write-latency phase with an exception oracle
(src/benchmark.py lines 53-87): failAt i says whether the write of file i
raises.  A raise propagates immediately: the loop stops, the cleanup
shutil.rmtree at line 87 is never reached, and the scratch directory survives.
Returns (completed normally, scratch directory exists after return). -/
def writeLatencyRun (failAt : ℕ → Bool) : List ℕ → Bool × Bool
  | [] => (true, false)
  | i :: rest => if failAt i then (false, true) else writeLatencyRun failAt rest

/-- The latency phase of write_benchmark viewed through its scratch-directory
lifecycle: os.makedirs at line 42 creates the directory, the loop runs over
range(latency_file_count), and shutil.rmtree at line 87 removes it only if no
iteration raised. -/
def write_benchmark_latency (failAt : ℕ → Bool) (count : ℕ) : Bool × Bool :=
  writeLatencyRun failAt (List.range count)

/-- The aggregated results of the write-latency phase (src/benchmark.py lines
44-96): one duration sample per file, reduced by summarize, together with the
echoed file size and count. -/
structure WriteLatencyResults where
  stats : Option Summary
  write_latency_file_size_kb : ℕ
  write_latency_file_count : ℕ

/-- write_benchmark latency phase, sample collection and aggregation
(src/benchmark.py lines 44-96). -/
def write_benchmark_latency_results (dur : ℕ → ℚ) (latency_file_count : ℕ) :
    WriteLatencyResults :=
  let latencies := workloadSamples dur latency_file_count
  { stats := summarize latencies,
    write_latency_file_size_kb := 4,
    write_latency_file_count := latency_file_count }

/-! ### The read-throughput workload (src/benchmark.py lines 261-342) -/

/-- The fields of the read-throughput results.update block (src/benchmark.py
lines 336-342). -/
structure ReadThroughputResults where
  stats : Option Summary
  read_throughput_file_size_mb : ℕ
  read_throughput_file_count : ℕ

/-- The throughput phase of read_benchmark (src/benchmark.py lines 261-342):
throughput_file_count = min(3, num_files) files of actual_file_size_mb =
throughput_file_size_mb * 2 megabytes are prepared, each is read via
read_with_no_buffering (abstracted by the per-file oracle readResult giving
its (duration, throughput) pair), the throughputs are aggregated, and the
bundle echoes actual_file_size_mb, not the caller's argument. -/
def read_benchmark_throughput (readResult : ℕ → ℚ × ℚ)
    (num_files throughput_file_size_mb : ℕ) : ReadThroughputResults :=
  let throughput_file_count := min 3 num_files
  let actual_file_size_mb := throughput_file_size_mb * 2
  let throughputs := (List.range throughput_file_count).map fun i => (readResult i).2
  { stats := summarize throughputs,
    read_throughput_file_size_mb := actual_file_size_mb,
    read_throughput_file_count := throughput_file_count }

/-! ### The random-seek workload (src/benchmark.py lines 346-440) -/

/-- Python random.randint(lo, hi): a uniformly random integer with BOTH
endpoints included.  The randomness source is an arbitrary natural r, reduced
into the range, so that every value of [lo, hi] is attainable.  (Python raises
ValueError when hi < lo; the embedding is only used with lo = 0 ≤ hi.) -/
def randint (r lo hi : ℕ) : ℕ := lo + r % (hi + 1 - lo)

/-- The seek positions generated at src/benchmark.py line 398:
[random.randint(0, max_pos) for _ in range(num_seeks)], with the oracle stream
rand supplying the randomness of draw i. -/
def seekPositions (rand : ℕ → ℕ) (numSeeks maxPos : ℕ) : List ℕ :=
  (List.range numSeeks).map fun i => randint (rand i) 0 maxPos

/-- The dictionary returned by random_seek_benchmark (src/benchmark.py lines
433-440). -/
structure SeekResults where
  stats : Option Summary
  num_seeks : ℕ
  file_size_mb : ℕ

/-- random_seek_benchmark (src/benchmark.py lines 346-440): for num_seeks ≤ 30
the file size is first clamped to min(file_size_mb, 30) (lines 361-362); a
file of fsz megabytes is created, max_pos = file_size_bytes - 4096, the seek
positions are drawn by randint, each seek-and-read of a 4096-byte block is
timed (oracle dur), and the returned dictionary carries the aggregated
latencies together with num_seeks and the CLAMPED file_size_mb. -/
def random_seek_benchmark (rand : ℕ → ℕ) (dur : ℕ → ℚ)
    (num_seeks file_size_mb : ℕ) : SeekResults :=
  let fsz := if num_seeks ≤ 30 then min file_size_mb 30 else file_size_mb
  let file_size_bytes := fsz * 1024 * 1024
  let max_pos := file_size_bytes - 4096
  let _positions := seekPositions rand num_seeks max_pos
  let latencies := workloadSamples dur num_seeks
  { stats := summarize latencies,
    num_seeks := num_seeks,
    file_size_mb := fsz }

/-! ### Persistence unit conversion (src/db.py lines 138-253)

save_benchmark_results iterates over the items of the write, read and seek
result dictionaries and decides, per key, whether and how to store the value.
The key tests are Python substring containment (the in operator) and
str.endswith, modelled below on the character lists of the strings. -/

/-- Whether the first character list is a leading piece of the second
(character-by-character comparison from the front). -/
def strStarts : List Char → List Char → Bool
  | [], _ => true
  | _ :: _, [] => false
  | a :: as, b :: bs => a == b && strStarts as bs

/-- Auxiliary scan for substring containment: does sub start at some drop of
the character list. -/
def strHasAux (sub : List Char) : List Char → Bool
  | [] => strStarts sub []
  | c :: cs => strStarts sub (c :: cs) || strHasAux sub cs

/-- Python substring containment: sub in s. -/
def strHas (s sub : String) : Bool := strHasAux sub.data s.data

/-- Python s.endswith(suf). -/
def strEnds (s suf : String) : Bool := strStarts suf.data.reverse s.data.reverse

/-- The per-entry storage decision for the write and read result dictionaries
(src/db.py lines 170-197 and 199-227, both branches are textually identical):
keys containing the substring latency and ending in avg, min, max or median
are stored as value * 1000 with unit ms; keys containing throughput and
ending in avg, min or max are stored unscaled with unit MB/s; other
latency/throughput keys (metadata) are skipped (none); keys containing
neither are stored as-is with an empty unit tag. -/
def processEntry (key : String) (value : ℚ) : Option (ℚ × String) :=
  if strHas key "latency" then
    if strEnds key "avg" || strEnds key "min" || strEnds key "max" ||
        strEnds key "median" then
      some (value * 1000, "ms")
    else none
  else if strHas key "throughput" then
    if strEnds key "avg" || strEnds key "min" || strEnds key "max" then
      some (value, "MB/s")
    else none
  else some (value, "")

/-- The per-entry storage decision for the seek result dictionary (src/db.py
lines 229-249): only latency summary keys are stored (scaled to ms); all
other keys are skipped. -/
def processSeekEntry (key : String) (value : ℚ) : Option (ℚ × String) :=
  if strHas key "latency" then
    if strEnds key "avg" || strEnds key "min" || strEnds key "max" ||
        strEnds key "median" then
      some (value * 1000, "ms")
    else none
  else none

/-- The latency summary keys produced by write_benchmark (lines 89-96) and
read_benchmark (lines 252-259) of src/benchmark.py. -/
def latencySummaryKeys : List String :=
  [ "write_latency_avg", "write_latency_min", "write_latency_max",
    "write_latency_median", "read_latency_avg", "read_latency_min",
    "read_latency_max", "read_latency_median" ]

/-- The latency summary keys produced by random_seek_benchmark (lines 433-440
of src/benchmark.py). -/
def seekLatencySummaryKeys : List String :=
  [ "seek_latency_avg", "seek_latency_min", "seek_latency_max",
    "seek_latency_median" ]

/-- The throughput summary keys produced by write_benchmark (lines 145-151)
and read_benchmark (lines 336-342) of src/benchmark.py. -/
def throughputSummaryKeys : List String :=
  [ "write_throughput_avg", "write_throughput_min", "write_throughput_max",
    "read_throughput_avg", "read_throughput_min", "read_throughput_max" ]

/-! ### Helper lemmas about the statistics -/

theorem foldl_min_le_init (xs : List ℚ) : ∀ x : ℚ, xs.foldl min x ≤ x := by
  induction xs with
  | nil => intro x; exact le_refl x
  | cons a as ih => intro x; exact le_trans (ih (min x a)) (min_le_left x a)

theorem foldl_min_le_mem (xs : List ℚ) :
    ∀ x y : ℚ, y ∈ xs → xs.foldl min x ≤ y := by
  induction xs with
  | nil => intro x y hy; cases hy
  | cons a as ih =>
    intro x y hy
    rcases List.mem_cons.mp hy with h | h
    · subst h
      exact le_trans (foldl_min_le_init as (min x y)) (min_le_right x y)
    · exact ih (min x a) y h

theorem pyMin_le (x : ℚ) (xs : List ℚ) : ∀ y ∈ x :: xs, pyMin x xs ≤ y := by
  intro y hy
  rcases List.mem_cons.mp hy with h | h
  · subst h; exact foldl_min_le_init xs y
  · exact foldl_min_le_mem xs x y h

theorem init_le_foldl_max (xs : List ℚ) : ∀ x : ℚ, x ≤ xs.foldl max x := by
  induction xs with
  | nil => intro x; exact le_refl x
  | cons a as ih => intro x; exact le_trans (le_max_left x a) (ih (max x a))

theorem mem_le_foldl_max (xs : List ℚ) :
    ∀ x y : ℚ, y ∈ xs → y ≤ xs.foldl max x := by
  induction xs with
  | nil => intro x y hy; cases hy
  | cons a as ih =>
    intro x y hy
    rcases List.mem_cons.mp hy with h | h
    · subst h
      exact le_trans (le_max_right x y) (init_le_foldl_max as (max x y))
    · exact ih (max x a) y h

theorem le_pyMax (x : ℚ) (xs : List ℚ) : ∀ y ∈ x :: xs, y ≤ pyMax x xs := by
  intro y hy
  rcases List.mem_cons.mp hy with h | h
  · subst h; exact init_le_foldl_max xs y
  · exact mem_le_foldl_max xs x y h

theorem mul_length_le_sum (m : ℚ) (l : List ℚ) (h : ∀ y ∈ l, m ≤ y) :
    m * (l.length : ℚ) ≤ l.sum := by
  induction l with
  | nil => simp
  | cons a as ih =>
    have ha : m ≤ a := h a (List.mem_cons_self a as)
    have has := ih fun y hy => h y (List.mem_cons_of_mem a hy)
    simp only [List.sum_cons, List.length_cons]
    push_cast
    nlinarith

theorem sum_le_mul_length (m : ℚ) (l : List ℚ) (h : ∀ y ∈ l, y ≤ m) :
    l.sum ≤ m * (l.length : ℚ) := by
  induction l with
  | nil => simp
  | cons a as ih =>
    have ha : a ≤ m := h a (List.mem_cons_self a as)
    have has := ih fun y hy => h y (List.mem_cons_of_mem a hy)
    simp only [List.sum_cons, List.length_cons]
    push_cast
    nlinarith

theorem length_cons_pos (x : ℚ) (xs : List ℚ) :
    (0 : ℚ) < (((x :: xs).length : ℕ) : ℚ) := by
  have : 0 < (x :: xs).length := by simp
  exact_mod_cast this

theorem pyMin_le_mean (x : ℚ) (xs : List ℚ) : pyMin x xs ≤ mean x xs := by
  rw [mean, le_div_iff₀ (length_cons_pos x xs)]
  exact mul_length_le_sum (pyMin x xs) (x :: xs) (pyMin_le x xs)

theorem mean_le_pyMax (x : ℚ) (xs : List ℚ) : mean x xs ≤ pyMax x xs := by
  rw [mean, div_le_iff₀ (length_cons_pos x xs)]
  exact sum_le_mul_length (pyMax x xs) (x :: xs) (le_pyMax x xs)

theorem sorted_getD_bounds (x : ℚ) (xs : List ℚ) (i : ℕ)
    (hi : i < (List.insertionSort (fun a b => a ≤ b) (x :: xs)).length) :
    pyMin x xs ≤ (List.insertionSort (fun a b => a ≤ b) (x :: xs)).getD i 0 ∧
      (List.insertionSort (fun a b => a ≤ b) (x :: xs)).getD i 0 ≤ pyMax x xs := by
  have hmem : (List.insertionSort (fun a b => a ≤ b) (x :: xs)).getD i 0 ∈
      List.insertionSort (fun a b => a ≤ b) (x :: xs) := by
    rw [List.getD_eq_getElem _ 0 hi]
    exact List.getElem_mem hi
  have hmem2 : (List.insertionSort (fun a b => a ≤ b) (x :: xs)).getD i 0 ∈
      x :: xs := (List.mem_insertionSort _).mp hmem
  exact ⟨pyMin_le x xs _ hmem2, le_pyMax x xs _ hmem2⟩

theorem median_bounds (x : ℚ) (xs : List ℚ) :
    pyMin x xs ≤ median x xs ∧ median x xs ≤ pyMax x xs := by
  have hlen : (List.insertionSort (fun a b => a ≤ b) (x :: xs)).length =
      xs.length + 1 := by
    rw [List.length_insertionSort]; rfl
  unfold median
  dsimp only
  set s := List.insertionSort (fun a b => a ≤ b) (x :: xs) with hs
  have hpos : 1 ≤ s.length := by omega
  split_ifs with hodd
  · exact sorted_getD_bounds x xs (s.length / 2) (by rw [← hs]; omega)
  · have hb1 := sorted_getD_bounds x xs (s.length / 2 - 1) (by rw [← hs]; omega)
    have hb2 := sorted_getD_bounds x xs (s.length / 2) (by rw [← hs]; omega)
    constructor
    · have h1 := hb1.1; have h2 := hb2.1; linarith
    · have h1 := hb1.2; have h2 := hb2.2; linarith

/-- Claim C6: for every non-empty sample sequence, written x :: xs, the
summary statistics of src/benchmark.py satisfy
min ≤ median ≤ max and min ≤ mean ≤ max, where mean is the arithmetic mean
and median follows the standard even/odd rule; in particular the median of
[1, 2, 3, 4] is 2.5. -/
theorem write_benchmark_summary_order (x : ℚ) (xs : List ℚ) :
    pyMin x xs ≤ median x xs ∧ median x xs ≤ pyMax x xs ∧
    pyMin x xs ≤ mean x xs ∧ mean x xs ≤ pyMax x xs ∧
    median 1 [2, 3, 4] = 5 / 2 := by
  refine ⟨(median_bounds x xs).1, (median_bounds x xs).2,
    pyMin_le_mean x xs, mean_le_pyMax x xs, ?_⟩
  norm_num [median, List.insertionSort, List.orderedInsert]

/-! ### Division-by-zero and fallback behaviour of read_with_no_buffering -/

/-- Claim C1 (code bug): read_with_no_buffering has no guard making the
throughput divisor strictly positive.  With the buffered path (PyWin32
absent) and a measured duration of exactly 0, the division
file_size_bytes / (1024*1024) / duration raises ZeroDivisionError (none)
instead of producing a sentinel- or epsilon-guarded result; the same happens
when the direct path's zero duration falls back to a buffered read that also
measures 0. -/
theorem read_unbuffered_zero_duration_unguarded :
    read_with_no_buffering false true true 1 0 (4 * 1024 * 1024)
      (4 * 1024 * 1024) = none ∧
    read_with_no_buffering true true true 0 0 (4 * 1024 * 1024)
      (4 * 1024 * 1024) = none ∧
    standard_reading (4 * 1024 * 1024) (4 * 1024 * 1024) 0 = none :=
  ⟨rfl, rfl, rfl⟩

/-- Claim C4: whenever the unbuffered path fails — PyWin32 missing, an open
failure, a ReadFile error, or even the direct path's own zero-duration
division — read_with_no_buffering returns exactly the buffered fallback's
result, and for a nonzero buffered duration that result is a well-shaped
some (duration, throughput) pair: no exception of the unbuffered attempt
escapes to the caller. -/
theorem read_unbuffered_falls_back (hasWin32 openOk readOk : Bool)
    (dD dB : ℚ) (A N : ℕ)
    (hfail : hasWin32 = false ∨ openOk = false ∨ readOk = false ∨ dD = 0) :
    read_with_no_buffering hasWin32 openOk readOk dD dB A N =
      standard_reading A N dB ∧
    (dB ≠ 0 → read_with_no_buffering hasWin32 openOk readOk dD dB A N =
      some (dB, (N : ℚ) / (1024 * 1024) / dB)) := by
  have hsr : dB ≠ 0 → standard_reading A N dB =
      some (dB, (N : ℚ) / (1024 * 1024) / dB) := by
    intro h
    simp [standard_reading, h]
  have hmain : read_with_no_buffering hasWin32 openOk readOk dD dB A N =
      standard_reading A N dB := by
    rcases hfail with h | h | h | h <;> subst h <;>
      simp [read_with_no_buffering]
  exact ⟨hmain, fun h => hmain.trans (hsr h)⟩

/-- Witness for C4 at a concrete input. -/
theorem read_unbuffered_falls_back_witness :
    read_with_no_buffering false true true 1 1 4096 4096 =
      standard_reading 4096 4096 1 ∧
    ((1 : ℚ) ≠ 0 → read_with_no_buffering false true true 1 1 4096 4096 =
      some (1, (4096 : ℚ) / (1024 * 1024) / 1)) :=
  read_unbuffered_falls_back false true true 1 1 4096 4096 (Or.inl rfl)

/-- Claim C10: the reported throughput of read_with_no_buffering is computed
from the declared file_size_bytes argument in both the direct and the
buffered path, never from the number of bytes actually read: the result does
not depend on the actual on-disk size A (in particular not when the read
loop hits end of file early, A < N), and every returned pair satisfies
throughput = N / (1024*1024) / duration with the declared N. -/
theorem read_unbuffered_uses_declared_size (hasWin32 openOk readOk : Bool)
    (dD dB : ℚ) (A Asmaller N : ℕ) (d t : ℚ) :
    read_with_no_buffering hasWin32 openOk readOk dD dB A N =
      read_with_no_buffering hasWin32 openOk readOk dD dB Asmaller N ∧
    (read_with_no_buffering hasWin32 openOk readOk dD dB A N = some (d, t) →
      t = (N : ℚ) / (1024 * 1024) / d) := by
  constructor
  · cases hasWin32 <;> cases openOk <;> cases readOk <;>
      simp [read_with_no_buffering, standard_reading]
  · intro hsome
    simp only [read_with_no_buffering, standard_reading] at hsome
    split_ifs at hsome <;> simp at hsome <;>
      (obtain ⟨rfl, rfl⟩ := hsome) <;> rfl

/-- Witness for C10 at a concrete input: a file whose actual size 2048 is
smaller than the declared 4096 bytes. -/
theorem read_unbuffered_uses_declared_size_witness :
    read_with_no_buffering false true true 1 1 2048 4096 =
      read_with_no_buffering false true true 1 1 4096 4096 ∧
    (read_with_no_buffering false true true 1 1 2048 4096 =
      some (1, (4096 : ℚ) / (1024 * 1024) / 1) →
      (4096 : ℚ) / (1024 * 1024) / 1 = (4096 : ℚ) / (1024 * 1024) / 1) := by
  have h := read_unbuffered_uses_declared_size false true true 1 1 2048 4096
    4096 1 ((4096 : ℚ) / (1024 * 1024) / 1)
  exact ⟨(h.1).symm ▸ h.1, h.2⟩

/-! ### Scratch directory lifecycle and sample aggregation -/

/-- Claim C2 (code bug): the scratch-directory teardown of write_benchmark is
not scoped (no try/finally): with latency_file_count = 1, if the timed write
of file 0 raises, the call propagates the exception and the scratch directory
still exists; only the normal path removes it. -/
theorem write_benchmark_scratch_left_on_exception :
    write_benchmark_latency (fun _ => true) 1 = (false, true) ∧
    write_benchmark_latency (fun _ => false) 1 = (true, false) :=
  ⟨rfl, rfl⟩

theorem summarize_isSome_of_ne_nil (l : List ℚ) (h : l ≠ []) :
    (summarize l).isSome = true := by
  cases l with
  | nil => exact absurd rfl h
  | cons x xs => rfl

theorem workloadSamples_ne_nil (dur : ℕ → ℚ) (n : ℕ) (h : 1 ≤ n) :
    workloadSamples dur n ≠ [] := by
  intro he
  have hl := congrArg List.length he
  simp [workloadSamples] at hl
  omega

/-- Claim C5: summarizing an empty sample sequence fails (statistics.mean
raises StatisticsError before any summary value is produced), and every
workload with positive unit count hands a non-empty sample list to the
aggregation, so under that precondition the error is unreachable: write
latency and random seek gather one sample per unit, read throughput gathers
min(3, num_files) samples. -/
theorem summarize_empty_fails_and_unreachable (dur : ℕ → ℚ) (rand : ℕ → ℕ)
    (readResult : ℕ → ℚ × ℚ) (count num_seeks fsz num_files tmb : ℕ)
    (hc : 1 ≤ count) (hs : 1 ≤ num_seeks) (hf : 1 ≤ num_files) :
    summarize [] = none ∧
    ((write_benchmark_latency_results dur count).stats).isSome = true ∧
    ((random_seek_benchmark rand dur num_seeks fsz).stats).isSome = true ∧
    ((read_benchmark_throughput readResult num_files tmb).stats).isSome
      = true := by
  refine ⟨rfl, ?_, ?_, ?_⟩
  · exact summarize_isSome_of_ne_nil _ (workloadSamples_ne_nil dur count hc)
  · exact summarize_isSome_of_ne_nil _ (workloadSamples_ne_nil dur num_seeks hs)
  · apply summarize_isSome_of_ne_nil
    intro he
    have hl := congrArg List.length he
    simp at hl
    omega

/-- Witness for C5 at concrete inputs. -/
theorem summarize_empty_fails_and_unreachable_witness :
    summarize [] = none ∧
    ((write_benchmark_latency_results (fun _ => 1) 1).stats).isSome = true ∧
    ((random_seek_benchmark (fun _ => 0) (fun _ => 1) 1 30).stats).isSome
      = true ∧
    ((read_benchmark_throughput (fun _ => (1, 1)) 1 50).stats).isSome = true :=
  summarize_empty_fails_and_unreachable (fun _ => 1) (fun _ => 0)
    (fun _ => (1, 1)) 1 1 30 1 50 (by decide) (by decide) (by decide)

/-! ### Random seek offsets -/

/-- Claim C3 counterexample: with a 30 MB file (file_size_bytes = 31457280,
max_pos = 31453184), random.randint can return the unaligned offset 1, and
can return max_pos itself, which is not strictly below fileSize - blockSize:
the claim as stated (strict upper bound and 4096-alignment) is false. -/
theorem seek_offsets_claim_false :
    seekPositions (fun _ => 1) 1 (30 * 1024 * 1024 - 4096) = [1] ∧
    ¬ (1 % 4096 = 0) ∧
    seekPositions (fun _ => 30 * 1024 * 1024 - 4096) 1
        (30 * 1024 * 1024 - 4096) = [30 * 1024 * 1024 - 4096] ∧
    ¬ (30 * 1024 * 1024 - 4096 < 30 * 1024 * 1024 - 4096) := by
  exact ⟨by decide, by decide, by decide, by decide⟩

/-- Claim C3 amended: every seek offset drawn at src/benchmark.py line 398
lies in the INCLUSIVE range [0, fileSizeBytes - 4096] (randint includes both
endpoints); no sector alignment is imposed. -/
theorem seek_offsets_in_inclusive_range (rand : ℕ → ℕ)
    (numSeeks fileSizeBytes : ℕ) (hfs : 4096 ≤ fileSizeBytes) :
    ∀ p ∈ seekPositions rand numSeeks (fileSizeBytes - 4096),
      p + 4096 ≤ fileSizeBytes := by
  intro p hp
  rw [seekPositions, List.mem_map] at hp
  obtain ⟨i, hi, hpe⟩ := hp
  have h : rand i % (fileSizeBytes - 4096 + 1 - 0) <
      fileSizeBytes - 4096 + 1 - 0 := Nat.mod_lt _ (by omega)
  rw [randint] at hpe
  omega

/-- Witness for C3 (amended) at a concrete input. -/
theorem seek_offsets_in_inclusive_range_witness : 1 + 4096 ≤ 8192 :=
  seek_offsets_in_inclusive_range (fun _ => 1) 1 8192 (by decide) 1 (by decide)

/-! ### Cache-bypass cadence of the write-latency workload -/

/-- Claim C7: for every latency_file_count ≥ 1, if the count is ≤ 20 then
clear_cache is invoked exactly once in the whole write-latency phase, namely
before the batch, and never inside the loop; if the count is > 20 it is not
invoked before the batch and is invoked in loop iteration i exactly when
i % 5 == 0. -/
theorem write_latency_cache_cadence (count : ℕ) (hc : 1 ≤ count) :
    (count ≤ 20 →
      (writeLatencyTrace count).count BenchEvent.clearCache = 1 ∧
      writeLatencyPre count = [BenchEvent.clearCache] ∧
      ∀ i < count, BenchEvent.clearCache ∉ writeLatencyIter count i) ∧
    (20 < count →
      BenchEvent.clearCache ∉ writeLatencyPre count ∧
      ∀ i < count,
        (BenchEvent.clearCache ∈ writeLatencyIter count i ↔ i % 5 = 0)) := by
  constructor
  · intro h
    have hpre : writeLatencyPre count = [BenchEvent.clearCache] := by
      simp [writeLatencyPre, h]
    have hiter : ∀ i < count,
        BenchEvent.clearCache ∉ writeLatencyIter count i := by
      intro i hi
      have h20 : ¬ (20 < count) := by omega
      simp [writeLatencyIter, h20]
    refine ⟨?_, hpre, hiter⟩
    rw [writeLatencyTrace, List.count_append, hpre]
    have hnone : BenchEvent.clearCache ∉
        (List.range count).flatMap (writeLatencyIter count) := by
      intro hmem
      rw [List.mem_flatMap] at hmem
      obtain ⟨i, hi, hmem2⟩ := hmem
      exact hiter i (List.mem_range.mp hi) hmem2
    rw [List.count_eq_zero.mpr hnone]
    rfl
  · intro h
    have h20 : ¬ (count ≤ 20) := by omega
    refine ⟨by simp [writeLatencyPre, h20], ?_⟩
    intro i hi
    by_cases hi5 : i % 5 = 0 <;> simp [writeLatencyIter, h, hi5]

/-- Witness for C7 at a concrete input. -/
theorem write_latency_cache_cadence_witness :
    (5 ≤ 20 →
      (writeLatencyTrace 5).count BenchEvent.clearCache = 1 ∧
      writeLatencyPre 5 = [BenchEvent.clearCache] ∧
      ∀ i < 5, BenchEvent.clearCache ∉ writeLatencyIter 5 i) ∧
    (20 < 5 →
      BenchEvent.clearCache ∉ writeLatencyPre 5 ∧
      ∀ i < 5, (BenchEvent.clearCache ∈ writeLatencyIter 5 i ↔ i % 5 = 0)) :=
  write_latency_cache_cadence 5 (by decide)

/-! ### Echo of test parameters in the result bundles -/

/-- Claim C8 counterexample: random_seek_benchmark called with num_seeks = 10
and file_size_mb = 100 returns file_size_mb = 30 (the clamp of lines 361-362),
not the argument 100; read_benchmark called with throughput_file_size_mb = 50
returns read_throughput_file_size_mb = 100 = 50 * 2 (line 275), not the
argument 50: the echo claim as stated is false. -/
theorem result_bundle_echo_claim_false :
    (random_seek_benchmark (fun _ => 0) (fun _ => 1) 10 100).file_size_mb
      = 30 ∧
    ¬ ((random_seek_benchmark (fun _ => 0) (fun _ => 1) 10 100).file_size_mb
      = 100) ∧
    (read_benchmark_throughput (fun _ => (1, 1)) 3
      50).read_throughput_file_size_mb = 100 ∧
    ¬ ((read_benchmark_throughput (fun _ => (1, 1)) 3
      50).read_throughput_file_size_mb = 50) :=
  ⟨by decide, by decide, by decide, by decide⟩

/-- Claim C8 amended: the result bundles echo num_seeks and the computed file
count unchanged, but the size fields echo the values actually used rather
than the caller's arguments: random_seek_benchmark returns
min(file_size_mb, 30) when num_seeks ≤ 30 and file_size_mb otherwise, and
read_benchmark returns read_throughput_file_size_mb =
throughput_file_size_mb * 2. -/
theorem result_bundle_echoes_used_parameters (rand : ℕ → ℕ) (dur : ℕ → ℚ)
    (num_seeks file_size_mb : ℕ) (readResult : ℕ → ℚ × ℚ)
    (num_files tmb : ℕ) :
    (random_seek_benchmark rand dur num_seeks file_size_mb).num_seeks
      = num_seeks ∧
    (random_seek_benchmark rand dur num_seeks file_size_mb).file_size_mb
      = (if num_seeks ≤ 30 then min file_size_mb 30 else file_size_mb) ∧
    (read_benchmark_throughput readResult num_files
      tmb).read_throughput_file_size_mb = tmb * 2 ∧
    (read_benchmark_throughput readResult num_files
      tmb).read_throughput_file_count = min 3 num_files :=
  ⟨rfl, rfl, rfl, rfl⟩

/-! ### Unit conversion at persistence time -/

/-- Claim C9: when a result bundle is persisted by save_benchmark_results,
every latency summary value (its key contains latency and ends in avg, min,
max or median) is stored as the raw seconds value times 1000 with unit tag
ms, and every throughput summary value (its key contains throughput and ends
in avg, min or max) is stored unscaled with unit tag MB/s — in the write and
read branches and, for latency, in the seek branch. -/
theorem save_results_unit_conversion (v : ℚ) :
    (∀ k ∈ latencySummaryKeys, processEntry k v = some (v * 1000, "ms")) ∧
    (∀ k ∈ seekLatencySummaryKeys,
      processSeekEntry k v = some (v * 1000, "ms")) ∧
    (∀ k ∈ throughputSummaryKeys, processEntry k v = some (v, "MB/s")) := by
  refine ⟨?_, ?_, ?_⟩ <;> intro k hk <;> fin_cases hk <;> rfl

/-- Witness for C9 at a concrete input. -/
theorem save_results_unit_conversion_witness :
    processEntry "write_latency_avg" 2 = some (2 * 1000, "ms") :=
  (save_results_unit_conversion 2).1 "write_latency_avg"
    (by simp [latencySummaryKeys])

end USBTestbench
